import Mathlib

/-!
Shallow embedding of `lib/streamlit/config_util.py`.

The file defines three functions:
  * `server_option_changed(old_options, new_options)`
  * `generate_config(section_descriptions, config_options, save_to_file)`
  * `show_config(section_descriptions, config_options)`
plus the helpers `_clean` and `_clean_paragraphs`.

Python dicts (which iterate in insertion order) are embedded as association
lists `List (String × _)`.  The external collaborators (`ConfigOption`,
`toml.dumps`, `click.style`, `streamlit_write`) are modelled from the spec,
as marked on each definition.
-/

/-- Modelled from the spec: values carried by a `ConfigOption` (its
`default_val` and `value`).  The option registry is external; the values the
config formatter serializes are opaque Python objects, modelled here as the
simple scalar values (plus `none`, which the TOML serializer drops). -/
inductive PyVal where
  | none
  | bool (b : Bool)
  | int (n : Int)
  | str (s : String)
deriving DecidableEq

/-- Modelled from the spec: `ConfigOption` lives in
`streamlit/config_option.py`, which is not among the supplied sources.  The
spec describes it as "a named setting with section, description, default
value, current value, visibility, deprecation flag/metadata, and provenance
(where it was set). Treated as opaque input."  The field `sect` embeds the
Python attribute `section` (a Lean keyword).  `is_expired` embeds the result
of the `is_expired()` method as an opaque precomputed flag, since its code is
not in the supplied sources. -/
structure ConfigOption where
  sect : String
  key : String
  description : String
  default_val : PyVal
  value : PyVal
  visibility : String
  deprecated : Bool
  deprecation_text : String
  expiration_date : String
  where_defined : String
  is_expired : Bool
deriving DecidableEq

/-- Modelled from the spec: the sentinel `ConfigOption.DEFAULT_DEFINITION`
marking provenance "not manually set"; its code is not among the supplied
sources and only equality with `where_defined` matters to `config_util`. -/
def DEFAULT_DEFINITION : String := "<default>"

/-- Modelled from the spec: the external TOML serialization library (the spec
declares reproducing it a non-goal).  `toml_dumps_entry k v` is
`toml.dumps({k: v})`: a Python `None` value serializes to the empty string
(the toml library skips `None` entries), any other value to
`k = <rendered v>` followed by a newline. -/
def toml_dumps_entry (k : String) (v : PyVal) : String :=
  match v with
  | PyVal.none => ""
  | PyVal.bool b => k ++ " = " ++ (if b then "true" else "false") ++ "\n"
  | PyVal.int n => k ++ " = " ++ toString n ++ "\n"
  | PyVal.str s => k ++ " = " ++ "\x22" ++ s ++ "\x22" ++ "\n"

/-- ANSI reset code appended by `click.style` (reset defaults to True). -/
def ansi_reset : String := "\x1b[0m"

/-- ANSI bold code emitted by `click.style(..., bold=True)`. -/
def ansi_bold : String := "\x1b[1m"

/-- ANSI foreground-green code emitted by `click.style(..., fg=green)`. -/
def ansi_green : String := "\x1b[32m"

/-- ANSI foreground-yellow code emitted by `click.style(..., fg=yellow)`. -/
def ansi_yellow : String := "\x1b[33m"

/-- Modelled from the spec: `click.style` (external terminal library) wraps
the text in the given ANSI codes and the reset code. -/
def click_style (text : String) (codes : List String) : String :=
  String.join codes ++ text ++ ansi_reset

/-- Python `str.strip()`: drop leading and trailing whitespace.  Implemented
over the character list so that it evaluates inside the kernel. -/
def py_strip (s : String) : String :=
  String.mk (((s.data.dropWhile Char.isWhitespace).reverse.dropWhile Char.isWhitespace).reverse)

/-- Worker for Python `str.split()` with no argument: split on runs of
whitespace, discarding empty tokens; `acc` holds the current token
reversed. -/
def py_split_ws_go (acc : List Char) : List Char → List (List Char)
  | [] => if acc.isEmpty then [] else [acc.reverse]
  | c :: cs =>
    if c.isWhitespace then
      if acc.isEmpty then py_split_ws_go [] cs
      else acc.reverse :: py_split_ws_go [] cs
    else py_split_ws_go (c :: acc) cs

/-- Python `txt.split()` (no argument): whitespace-delimited tokens. -/
def py_split_whitespace (s : String) : List String :=
  (py_split_ws_go [] s.data).map String.mk

/-- Python `txt.split("\n\n")` at the character level: split at each
non-overlapping occurrence of two consecutive newlines, keeping empty
pieces, scanning left to right. -/
def split_double_nl : List Char → List (List Char)
  | '\n' :: '\n' :: rest => [] :: split_double_nl rest
  | c :: cs =>
    match split_double_nl cs with
    | h :: t => (c :: h) :: t
    | [] => [[c]]
  | [] => [[]]

/-- Python `s.split(sep)` for a one-character separator, keeping empty
pieces. -/
def split_char (sep : Char) : List Char → List (List Char)
  | [] => [[]]
  | c :: cs =>
    if c = sep then [] :: split_char sep cs
    else
      match split_char sep cs with
      | h :: t => (c :: h) :: t
      | [] => [[c]]

/-- `_clean`: replace all whitespace with a single space
(`" ".join(txt.split()).strip()`). -/
def _clean (txt : String) : String :=
  py_strip (String.intercalate " " (py_split_whitespace txt))

/-- `_clean_paragraphs`: split on blank lines (`txt.split("\n\n")`), then
`_clean` each paragraph. -/
def _clean_paragraphs (txt : String) : List String :=
  ((split_double_nl txt.data).map String.mk).map _clean

/-- The local helper `append_desc` of `generate_config`, as the line it
appends: the raw text in file mode, bold-styled in terminal mode. -/
def append_desc (save_to_file : Bool) (text : String) : String :=
  if save_to_file then text else click_style text [ansi_bold]

/-- The local helper `append_comment` of `generate_config`, as the line it
appends: the raw text in file mode, `click.style(text)` in terminal mode. -/
def append_comment (save_to_file : Bool) (text : String) : String :=
  if save_to_file then text else click_style text []

/-- The local helper `append_section` of `generate_config`, as the line it
appends: the raw text in file mode, green bold in terminal mode. -/
def append_section (save_to_file : Bool) (text : String) : String :=
  if save_to_file then text else click_style text [ansi_green, ansi_bold]

/-- The local helper `append_setting` of `generate_config`, as the line it
appends: the raw text in file mode, green in terminal mode. -/
def append_setting (save_to_file : Bool) (text : String) : String :=
  if save_to_file then text else click_style text [ansi_green]

/-- `SKIP_SECTIONS = ("_test",)` from `generate_config`. -/
def SKIP_SECTIONS : List String := ["_test"]

/-- The reassignment `key = option.key.split(".")[1]` in the option loop. -/
def option_key (o : ConfigOption) : String :=
  (((split_char '.' o.key.data).map String.mk).getD 1 "")

/-- The description lines of one option: each cleaned paragraph becomes a
`# `-comment, the first via `append_desc`, the rest via `append_comment`. -/
def description_lines (save_to_file : Bool) (o : ConfigOption) : List String :=
  ((_clean_paragraphs o.description).enum).map (fun p =>
    if p.1 == 0 then append_desc save_to_file ("# " ++ p.2)
    else append_comment save_to_file ("# " ++ p.2))

/-- `toml_default = toml.dumps({"default": option.default_val})[10:].strip()`. -/
def toml_default (o : ConfigOption) : String :=
  py_strip (String.mk ((toml_dumps_entry "default" o.default_val).data.drop 10))

/-- The `# Default: ...` comment, emitted only when `toml_default` is
non-empty (the explicit `else: pass` branch skips complex settings). -/
def default_lines (save_to_file : Bool) (o : ConfigOption) : List String :=
  if (toml_default o).length > 0 then
    [append_comment save_to_file ("# Default: " ++ toml_default o)]
  else []

/-- The deprecation block emitted when `option.deprecated` holds. -/
def deprecation_lines (save_to_file : Bool) (o : ConfigOption) : List String :=
  if o.deprecated then
    [append_comment save_to_file "#",
     if !save_to_file then
       append_comment save_to_file ("# " ++ click_style "DEPRECATED." [ansi_yellow])
     else append_comment save_to_file "# DEPRECATED.",
     append_comment save_to_file
       ("# " ++ String.intercalate "\n" (_clean_paragraphs o.deprecation_text)),
     append_comment save_to_file
       ("# This option will be removed on or after " ++ o.expiration_date ++ "."),
     append_comment save_to_file "#"]
  else []

/-- `option_is_manually_set = option.where_defined != ConfigOption.DEFAULT_DEFINITION`. -/
def option_is_manually_set (o : ConfigOption) : Bool :=
  o.where_defined != DEFAULT_DEFINITION

/-- The `# The value below was set in ...` comment for manually set options. -/
def where_defined_lines (save_to_file : Bool) (o : ConfigOption) : List String :=
  if option_is_manually_set o then
    [append_comment save_to_file ("# The value below was set in " ++ o.where_defined)]
  else []

/-- The final `toml_setting` text: `toml.dumps({key: option.value})`,
commented out with a leading `#` when non-empty and not manually set, and
replaced by the placeholder `#<key> =` when empty. -/
def toml_setting (o : ConfigOption) : String :=
  let s := toml_dumps_entry (option_key o) o.value
  let s := if s.length != 0 && !option_is_manually_set o then "#" ++ s else s
  if s.length == 0 then "#" ++ option_key o ++ " =\n" else s

/-- All lines the inner option loop of `generate_config` appends for one
(non-skipped) option, in order. -/
def option_lines (save_to_file : Bool) (o : ConfigOption) : List String :=
  description_lines save_to_file o ++ default_lines save_to_file o ++
  deprecation_lines save_to_file o ++ where_defined_lines save_to_file o ++
  [append_setting save_to_file (toml_setting o)]

/-- The three `continue` guards of the option loop: the option belongs to the
current section, is not hidden, and is not expired. -/
def option_emitted (sect : String) (o : ConfigOption) : Bool :=
  o.sect == sect && o.visibility != "hidden" && !o.is_expired

/-- All lines the section loop appends for one non-skipped section: a blank
line, the `[section]` header, a blank line, then the lines of every emitted
option in `config_options` iteration order. -/
def section_lines (save_to_file : Bool)
    (config_options : List (String × ConfigOption)) (sect : String) : List String :=
  "" :: append_section save_to_file ("[" ++ sect ++ "]") :: "" ::
    (config_options.filter (fun p => option_emitted sect p.2)).flatMap
      (fun p => option_lines save_to_file p.2)

/-- The fixed header comment appended first by `generate_config`. -/
def config_header : String :=
  _clean "\n        # Below are all the sections and options you can have in\n        ~/.streamlit/config.toml.\n    "

/-- Result of `generate_config`: the returned line list `out`, and the file
side effect as `fileWrite = some (path, content)` exactly when a file is
written.  Modelled from the spec for the write itself: `streamlit_write` is
an external collaborator; the spec says file mode "writes the joined text to
a fixed config file path", and the call site passes the per-project path
`"config.toml"` and writes `"\n".join(out)`. -/
structure GenResult where
  out : List String
  fileWrite : Option (String × String)
deriving DecidableEq

/-- `generate_config(section_descriptions, config_options, save_to_file)`. -/
def generate_config (section_descriptions : List (String × String))
    (config_options : List (String × ConfigOption)) (save_to_file : Bool) : GenResult :=
  let out := config_header ::
    (section_descriptions.filter (fun sd => !SKIP_SECTIONS.contains sd.1)).flatMap
      (fun sd => section_lines save_to_file config_options sd.1)
  { out := out
    fileWrite :=
      if save_to_file then some ("config.toml", String.intercalate "\n" out) else none }

/-- `show_config`: calls `generate_config` with `save_to_file=False` and
echoes the joined lines; modelled as the echoed text. -/
def show_config (section_descriptions : List (String × String))
    (config_options : List (String × ConfigOption)) : String :=
  String.intercalate "\n" (generate_config section_descriptions config_options false).out

/-- Modelled from the spec: a run of `generate_config` together with the
external I/O layer (`streamlit_write`), whose failures "propagate from the
underlying I/O layer".  `write_error = some e` means the file write would
fail with `e`; the error surfaces exactly when a write is attempted, and
otherwise the computed line list is returned. -/
def run_generate_config (section_descriptions : List (String × String))
    (config_options : List (String × ConfigOption)) (save_to_file : Bool)
    (write_error : Option String) : Except String (List String) :=
  let r := generate_config section_descriptions config_options save_to_file
  match r.fileWrite, write_error with
  | some _, some e => Except.error e
  | _, _ => Except.ok r.out

/-- Python `s.startswith(p)`, over character lists so that it evaluates
inside the kernel. -/
def py_startswith (s p : String) : Bool :=
  p.data.isPrefixOf s.data

/-- Python dict lookup `m[k]` on the association-list embedding. -/
def dict_lookup (m : List (String × ConfigOption)) (k : String) : Option ConfigOption :=
  (m.find? (fun p => p.1 == k)).map (fun p => p.2)

/-- The loop of `server_option_changed` over `old_options.keys()`; `none`
embeds the `KeyError` raised when a key is missing from `new_options`. -/
def server_option_changed_go (old_options new_options : List (String × ConfigOption)) :
    List String → Option Bool
  | [] => some false
  | opt_name :: rest =>
    if !py_startswith opt_name "server" then
      server_option_changed_go old_options new_options rest
    else
      match dict_lookup old_options opt_name, dict_lookup new_options opt_name with
      | some o, some n =>
        if o.value ≠ n.value then some true
        else server_option_changed_go old_options new_options rest
      | _, _ => Option.none

/-- `server_option_changed(old_options, new_options)`. -/
def server_option_changed (old_options new_options : List (String × ConfigOption)) :
    Option Bool :=
  server_option_changed_go old_options new_options (old_options.map Prod.fst)

/-- An option survives all three skip conditions of the spec: it is not
hidden, not expired, and not in the internal-test section `"_test"`. -/
def keep_option (o : ConfigOption) : Bool :=
  !(o.visibility == "hidden" || o.is_expired || o.sect == "_test")

/-- Concrete sample option: visible, two description paragraphs, integer
default, not manually set. -/
def exPort : ConfigOption :=
  ⟨"server", "server.port", "Port number.\n\nSecond para.", PyVal.int 8501,
   PyVal.int 8501, "visible", false, "", "", DEFAULT_DEFINITION, false⟩

/-- Concrete sample option whose default and value are Python `None`, so both
TOML serializations are empty. -/
def exNoDefault : ConfigOption :=
  ⟨"server", "server.headless", "Run headless.", PyVal.none, PyVal.none,
   "visible", false, "", "", DEFAULT_DEFINITION, false⟩

/-- Concrete sample deprecated option. -/
def exDeprecated : ConfigOption :=
  ⟨"server", "server.old", "Old option.", PyVal.bool true, PyVal.bool true,
   "visible", true, "Use new.", "2021-01-01", DEFAULT_DEFINITION, false⟩

/-- Concrete sample manually-set option. -/
def exManual : ConfigOption :=
  ⟨"server", "server.manual", "Manual option.", PyVal.bool true, PyVal.bool false,
   "visible", false, "", "", "command line", false⟩

/-- Concrete sample section-description mapping. -/
def exSd : List (String × String) := [("server", "Server section")]

/-- Concrete sample option mapping. -/
def exCo : List (String × ConfigOption) :=
  [("server.port", exPort), ("server.headless", exNoDefault),
   ("server.old", exDeprecated), ("server.manual", exManual)]

/-- Concrete option mapping holding only the `None`-valued option, so that no
`# Default:` comment can appear anywhere in the output. -/
def exCoNoDefault : List (String × ConfigOption) :=
  [("server.headless", exNoDefault)]

/-- Concrete old option mapping for `server_option_changed`. -/
def exOld : List (String × ConfigOption) :=
  [("server.port", exPort), ("other.x", exManual)]

/-- Concrete new option mapping for `server_option_changed`, differing from
`exOld` at the server key. -/
def exNew : List (String × ConfigOption) :=
  [("server.port", exNoDefault)]

/-- C10: for every input, the first returned line is the fixed header comment,
and with an empty section-description mapping the returned list is exactly
that single line. -/
theorem claim_c10 (sd : List (String × String)) (co : List (String × ConfigOption))
    (stf : Bool) :
    (generate_config sd co stf).out.head? =
      some "# Below are all the sections and options you can have in ~/.streamlit/config.toml."
    ∧ (generate_config ([] : List (String × String)) co stf).out =
      ["# Below are all the sections and options you can have in ~/.streamlit/config.toml."] := by
  have hh : config_header =
      "# Below are all the sections and options you can have in ~/.streamlit/config.toml." := by
    decide
  constructor
  · simp [generate_config, hh]
  · simp [generate_config, hh]

/-- C3: the file side effect happens exactly when `save_to_file` is true, at
the fixed per-project path `config.toml` with the newline-joined lines as
content; with `save_to_file=False` no file is written and `show_config` just
prints the joined line list. -/
theorem claim_c3 (sd : List (String × String)) (co : List (String × ConfigOption)) :
    (generate_config sd co true).fileWrite =
      some ("config.toml", String.intercalate "\n" (generate_config sd co true).out)
    ∧ (generate_config sd co false).fileWrite = none
    ∧ show_config sd co = String.intercalate "\n" (generate_config sd co false).out := by
  refine ⟨rfl, rfl, rfl⟩

/-- C6: `generate_config` is deterministic: equal inputs give equal results
(the output buffer is local to the call in the embedding, which is a pure
function of its arguments). -/
theorem claim_c6 (sd₁ sd₂ : List (String × String))
    (co₁ co₂ : List (String × ConfigOption)) (stf₁ stf₂ : Bool)
    (h₁ : sd₁ = sd₂) (h₂ : co₁ = co₂) (h₃ : stf₁ = stf₂) :
    generate_config sd₁ co₁ stf₁ = generate_config sd₂ co₂ stf₂ := by
  rw [h₁, h₂, h₃]

/-- Witness for C6 at concrete inputs. -/
theorem claim_c6_witness :
    generate_config exSd exCo true = generate_config exSd exCo true :=
  claim_c6 exSd exSd exCo exCo true true rfl rfl rfl

/-- C7: failures can only come from the file-write step of file mode: in
terminal mode the run succeeds whether or not the I/O layer would fail, a
failing file-mode write propagates the error unchanged, and the computed line
list is the same `(generate_config ...).out` in every case. -/
theorem claim_c7 (sd : List (String × String)) (co : List (String × ConfigOption))
    (e : String) :
    run_generate_config sd co false (some e) = Except.ok (generate_config sd co false).out
    ∧ run_generate_config sd co false Option.none =
        Except.ok (generate_config sd co false).out
    ∧ run_generate_config sd co true (some e) = Except.error e
    ∧ run_generate_config sd co true Option.none =
        Except.ok (generate_config sd co true).out := by
  refine ⟨rfl, rfl, rfl, rfl⟩

/-- An option passing the three loop guards for a non-test section also
passes all three skip conditions. -/
lemma keep_of_emitted {s : String} {o : ConfigOption} (hs : s ≠ "_test")
    (h : option_emitted s o = true) : keep_option o = true := by
  simp only [option_emitted, Bool.and_eq_true, beq_iff_eq, bne_iff_ne, ne_eq,
    Bool.not_eq_true', Bool.not_eq_true] at h
  obtain ⟨⟨h1, h2⟩, h3⟩ := h
  simp [keep_option, h1, h2, h3, hs]

/-- Pre-filtering the option mapping by any predicate that holds of every
option emitted in section `s` does not change that section's lines. -/
lemma section_lines_filter (stf : Bool) (co : List (String × ConfigOption))
    (s : String) (f : String × ConfigOption → Bool)
    (hf : ∀ q, option_emitted s q.2 = true → f q = true) :
    section_lines stf (co.filter f) s = section_lines stf co s := by
  unfold section_lines
  have h : (co.filter f).filter (fun p => option_emitted s p.2) =
      co.filter (fun p => option_emitted s p.2) := by
    rw [List.filter_filter]
    apply List.filter_congr
    intro x _
    cases h : option_emitted s x.2
    · simp
    · simp [hf x h]
  rw [h]

/-- Pre-filtering the option mapping by any predicate that holds of every
option emitted in some non-skipped section does not change the result of
`generate_config`. -/
lemma generate_config_filter (sd : List (String × String))
    (co : List (String × ConfigOption)) (stf : Bool)
    (f : String × ConfigOption → Bool)
    (hf : ∀ p ∈ sd.filter (fun p => !SKIP_SECTIONS.contains p.1),
      ∀ q, option_emitted p.1 q.2 = true → f q = true) :
    generate_config sd (co.filter f) stf = generate_config sd co stf := by
  unfold generate_config
  have hout : (sd.filter (fun p => !SKIP_SECTIONS.contains p.1)).flatMap
      (fun p => section_lines stf (co.filter f) p.1) =
      (sd.filter (fun p => !SKIP_SECTIONS.contains p.1)).flatMap
      (fun p => section_lines stf co p.1) := by
    rw [List.flatMap_def, List.flatMap_def]
    congr 1
    apply List.map_congr_left
    intro p hp
    exact section_lines_filter stf co p.1 f (hf p hp)
  rw [hout]

/-- C1: hidden options, expired options, and options of the internal-test
section `"_test"` contribute nothing to `generate_config`: removing them all
from the option mapping leaves the result unchanged. -/
theorem claim_c1 (sd : List (String × String)) (co : List (String × ConfigOption))
    (stf : Bool) :
    generate_config sd (co.filter (fun q => keep_option q.2)) stf =
      generate_config sd co stf := by
  apply generate_config_filter
  intro p hp q hq
  have hs : p.1 ≠ "_test" := by
    have h2 := (List.mem_filter.1 hp).2
    simpa [SKIP_SECTIONS] using h2
  exact keep_of_emitted hs hq

/-- C5: the output is the header followed by one block per non-skipped
section, in the iteration order of the section-description mapping; each
block is a blank line, the `[section]` header, a blank line, and the lines of
exactly the emitted options whose `section` field equals that section, in
option-mapping order.  Moreover an option whose section is not a key of the
section-description mapping contributes nothing. -/
theorem claim_c5 (sd : List (String × String)) (co : List (String × ConfigOption))
    (stf : Bool) :
    ((generate_config sd co stf).out =
      config_header ::
        (sd.filter (fun p => !SKIP_SECTIONS.contains p.1)).flatMap (fun p =>
          "" :: append_section stf ("[" ++ p.1 ++ "]") :: "" ::
            (co.filter (fun q => option_emitted p.1 q.2)).flatMap
              (fun q => option_lines stf q.2)))
    ∧ generate_config sd (co.filter (fun q => (sd.map Prod.fst).contains q.2.sect)) stf =
      generate_config sd co stf := by
  constructor
  · rfl
  · apply generate_config_filter
    intro p hp q hq
    have hsect : q.2.sect = p.1 := by
      simp only [option_emitted, Bool.and_eq_true, beq_iff_eq] at hq
      exact hq.1.1
    have hmem : p.1 ∈ sd.map Prod.fst :=
      List.mem_map.2 ⟨p, (List.mem_filter.1 hp).1, rfl⟩
    rw [hsect]
    exact List.elem_eq_true_of_mem hmem

/-- The lines of an emitted option form a contiguous run of the lines of its
section. -/
lemma option_lines_infix_section (stf : Bool) {co : List (String × ConfigOption)}
    {k : String} {o : ConfigOption} {s : String}
    (hco : (k, o) ∈ co) (he : option_emitted s o = true) :
    option_lines stf o <:+: section_lines stf co s := by
  have hmem : (k, o) ∈ co.filter (fun p => option_emitted s p.2) :=
    List.mem_filter.2 ⟨hco, he⟩
  have hmap : option_lines stf o ∈
      (co.filter (fun p => option_emitted s p.2)).map (fun p => option_lines stf p.2) :=
    List.mem_map.2 ⟨(k, o), hmem, rfl⟩
  have hinf := List.infix_of_mem_flatten hmap
  rw [← List.flatMap_def] at hinf
  obtain ⟨a, b, hab⟩ := hinf
  exact ⟨"" :: append_section stf ("[" ++ s ++ "]") :: "" :: a, b, by
    simp only [section_lines, List.cons_append, List.cons.injEq, true_and]
    simpa using hab⟩

/-- The lines of a non-skipped section form a contiguous run of the
`generate_config` output. -/
lemma section_lines_infix_out (stf : Bool) {sd : List (String × String)}
    (co : List (String × ConfigOption)) {s d : String}
    (hsd : (s, d) ∈ sd) (hskip : s ≠ "_test") :
    section_lines stf co s <:+: (generate_config sd co stf).out := by
  have hmemsd : (s, d) ∈ sd.filter (fun p => !SKIP_SECTIONS.contains p.1) :=
    List.mem_filter.2 ⟨hsd, by simp [SKIP_SECTIONS, hskip]⟩
  have hmap : section_lines stf co s ∈
      (sd.filter (fun p => !SKIP_SECTIONS.contains p.1)).map
        (fun p => section_lines stf co p.1) :=
    List.mem_map.2 ⟨(s, d), hmemsd, rfl⟩
  have hinf := List.infix_of_mem_flatten hmap
  rw [← List.flatMap_def] at hinf
  exact List.infix_cons hinf

/-- The lines of an emitted option form a contiguous run of the
`generate_config` output. -/
lemma option_lines_infix_out (stf : Bool) {sd : List (String × String)}
    {co : List (String × ConfigOption)} {s d k : String} {o : ConfigOption}
    (hsd : (s, d) ∈ sd) (hskip : s ≠ "_test") (hco : (k, o) ∈ co)
    (he : option_emitted s o = true) :
    option_lines stf o <:+: (generate_config sd co stf).out :=
  (option_lines_infix_section stf hco he).trans (section_lines_infix_out stf co hsd hskip)

/-- C2: for every emitted deprecated option, the option's contiguous run of
output lines contains, adjacent to its other lines, the five-line deprecation
block: `#`, `DEPRECATED.`, the cleaned deprecation text as a comment, and a
comment saying the option will be removed on or after its expiration date,
followed by `#`. -/
theorem claim_c2 (sd : List (String × String)) (co : List (String × ConfigOption))
    (stf : Bool) (s d k : String) (o : ConfigOption)
    (hsd : (s, d) ∈ sd) (hskip : s ≠ "_test") (hco : (k, o) ∈ co)
    (he : option_emitted s o = true) (hdep : o.deprecated = true) :
    ([append_comment stf "#",
      if !stf then append_comment stf ("# " ++ click_style "DEPRECATED." [ansi_yellow])
      else append_comment stf "# DEPRECATED.",
      append_comment stf
        ("# " ++ String.intercalate "\n" (_clean_paragraphs o.deprecation_text)),
      append_comment stf
        ("# This option will be removed on or after " ++ o.expiration_date ++ "."),
      append_comment stf "#"] <:+: option_lines stf o)
    ∧ option_lines stf o <:+: (generate_config sd co stf).out := by
  constructor
  · refine ⟨description_lines stf o ++ default_lines stf o,
      where_defined_lines stf o ++ [append_setting stf (toml_setting o)], ?_⟩
    simp [option_lines, deprecation_lines, hdep, List.append_assoc]
  · exact option_lines_infix_out stf hsd hskip hco he

/-- Witness for C2: the deprecation block of the concrete deprecated option
`exDeprecated` sits inside its option lines, which sit inside the output. -/
theorem claim_c2_witness :
    exDeprecated.deprecated = true ∧
    (([append_comment true "#", append_comment true "# DEPRECATED.",
       append_comment true
         ("# " ++ String.intercalate "\n" (_clean_paragraphs exDeprecated.deprecation_text)),
       append_comment true
         ("# This option will be removed on or after " ++ exDeprecated.expiration_date ++ "."),
       append_comment true "#"] <:+: option_lines true exDeprecated)
     ∧ option_lines true exDeprecated <:+: (generate_config exSd exCo true).out) := by
  refine ⟨rfl, ?_⟩
  exact claim_c2 exSd exCo true "server" "Server section" "server.old" exDeprecated
    (by decide) (by decide) (by decide) (by decide) rfl

set_option maxRecDepth 8192 in
/-- C4 counterexample: `exNoDefault` is an emitted option (visible, not
expired, in the emitted section `server`), yet the returned line list
contains no `# Default:` comment at all (no line whose characters begin with
`# Default`), because the TOML serialization of its Python-`None` default is
empty and the code explicitly skips the default comment then. -/
theorem claim_c4_counterexample :
    option_emitted "server" exNoDefault = true ∧
    ("server.headless", exNoDefault) ∈ exCoNoDefault ∧
    ("server", "Server section") ∈ exSd ∧
    (generate_config exSd exCoNoDefault true).out.all
      (fun l => !("# Default".data.isPrefixOf l.data)) = true := by
  refine ⟨rfl, by decide, by decide, by decide⟩

/-- C4 (amended): for every emitted option, the output contains every cleaned
description paragraph as a `# ` comment line; it contains the
`# Default: ...` comment when the TOML serialization of the default value is
non-empty, and the option's default block is empty when that serialization is
empty; and it always contains the option's setting line, which carries the
TOML serialization of the current value (commented out or not) when that is
non-empty and is the placeholder `#<key> =` otherwise. -/
theorem claim_c4 (sd : List (String × String)) (co : List (String × ConfigOption))
    (stf : Bool) (s d k : String) (o : ConfigOption)
    (hsd : (s, d) ∈ sd) (hskip : s ≠ "_test") (hco : (k, o) ∈ co)
    (he : option_emitted s o = true) :
    (∀ para ∈ _clean_paragraphs o.description,
      append_desc stf ("# " ++ para) ∈ (generate_config sd co stf).out ∨
      append_comment stf ("# " ++ para) ∈ (generate_config sd co stf).out)
    ∧ ((toml_default o).length > 0 →
        append_comment stf ("# Default: " ++ toml_default o) ∈
          (generate_config sd co stf).out)
    ∧ ((toml_default o).length = 0 → default_lines stf o = [])
    ∧ append_setting stf (toml_setting o) ∈ (generate_config sd co stf).out
    ∧ (toml_dumps_entry (option_key o) o.value = "" →
        toml_setting o = "#" ++ option_key o ++ " =\n")
    ∧ (toml_dumps_entry (option_key o) o.value ≠ "" →
        toml_setting o = toml_dumps_entry (option_key o) o.value ∨
        toml_setting o = "#" ++ toml_dumps_entry (option_key o) o.value) := by
  have hsub : ∀ l ∈ option_lines stf o, l ∈ (generate_config sd co stf).out :=
    fun l hl => (option_lines_infix_out stf hsd hskip hco he).subset hl
  refine ⟨?_, ?_, ?_, ?_, ?_, ?_⟩
  · intro para hpara
    have hpara2 : para ∈ (_clean_paragraphs o.description).enum.map Prod.snd := by
      rw [List.enum_map_snd]
      exact hpara
    obtain ⟨⟨i, q⟩, hmem, hq⟩ := List.mem_map.1 hpara2
    simp only at hq
    subst hq
    have hline : (if i == 0 then append_desc stf ("# " ++ q)
        else append_comment stf ("# " ++ q)) ∈ description_lines stf o :=
      List.mem_map.2 ⟨(i, q), hmem, rfl⟩
    have hline2 : (if i == 0 then append_desc stf ("# " ++ q)
        else append_comment stf ("# " ++ q)) ∈ option_lines stf o := by
      unfold option_lines
      simp only [List.mem_append]
      exact Or.inl (Or.inl (Or.inl (Or.inl hline)))
    rcases h0 : (i == 0) with _ | _
    · right
      have := hsub _ hline2
      rwa [h0, if_neg (by simp)] at this
    · left
      have := hsub _ hline2
      rwa [h0, if_pos rfl] at this
  · intro hlen
    have hline : append_comment stf ("# Default: " ++ toml_default o) ∈
        default_lines stf o := by
      unfold default_lines
      rw [if_pos hlen]
      exact List.mem_singleton.2 rfl
    apply hsub
    unfold option_lines
    simp only [List.mem_append]
    exact Or.inl (Or.inl (Or.inl (Or.inr hline)))
  · intro hlen
    unfold default_lines
    rw [if_neg (by omega)]
  · apply hsub
    unfold option_lines
    simp only [List.mem_append]
    exact Or.inr (List.mem_singleton.2 rfl)
  · intro hz
    unfold toml_setting
    rw [hz]
    simp
  · intro hnz
    have hlen0 : (toml_dumps_entry (option_key o) o.value).length ≠ 0 := by
      intro h0
      apply hnz
      have hdata : (toml_dumps_entry (option_key o) o.value).data = [] :=
        List.length_eq_zero.1 h0
      apply String.ext
      rw [hdata]
    cases hm : option_is_manually_set o
    · right
      simp [toml_setting, hm, hlen0, String.length_append]
    · left
      simp [toml_setting, hm, hlen0]

set_option maxRecDepth 8192 in
/-- Witness for C4 (amended) at the concrete option `exPort`: its first
description paragraph appears as a comment, its `# Default:` comment appears
(the default serializes non-empty), and its setting line appears. -/
theorem claim_c4_witness :
    "Port number." ∈ _clean_paragraphs exPort.description ∧
    (append_desc true "# Port number." ∈ (generate_config exSd exCo true).out ∨
      append_comment true "# Port number." ∈ (generate_config exSd exCo true).out) ∧
    (toml_default exPort).length > 0 ∧
    append_comment true ("# Default: " ++ toml_default exPort) ∈
      (generate_config exSd exCo true).out ∧
    append_setting true (toml_setting exPort) ∈ (generate_config exSd exCo true).out := by
  have h := claim_c4 exSd exCo true "server" "Server section" "server.port" exPort
    (by decide) (by decide) (by decide) (by decide)
  exact ⟨by decide, h.1 "Port number." (by decide), by decide,
    h.2.1 (by decide), h.2.2.2.1⟩

/-- The TOML serialization of a non-`None` value is the key followed by
`" = "` and the rendered value. -/
lemma toml_dumps_entry_data {k : String} {v : PyVal} (hv : v ≠ PyVal.none) :
    ∃ t : List Char, (toml_dumps_entry k v).data = k.data ++ (' ' :: '=' :: ' ' :: t) := by
  have hmid : " = ".data = [' ', '=', ' '] := rfl
  cases v with
  | none => exact absurd rfl hv
  | bool b =>
    refine ⟨((if b then "true" else "false") ++ "\n").data, ?_⟩
    simp [toml_dumps_entry, String.data_append, hmid, List.append_assoc]
  | int n =>
    refine ⟨(toString n ++ "\n").data, ?_⟩
    simp [toml_dumps_entry, String.data_append, hmid, List.append_assoc]
  | str s2 =>
    refine ⟨("\x22" ++ s2 ++ "\x22" ++ "\n").data, ?_⟩
    simp [toml_dumps_entry, String.data_append, hmid, List.append_assoc]

/-- If the key does not begin with `#`, neither does the TOML serialization
of a non-`None` value under that key. -/
lemma toml_dumps_entry_head {k : String} {v : PyVal} (hv : v ≠ PyVal.none)
    (hk : k.data.head? ≠ some '#') :
    (toml_dumps_entry k v).data.head? ≠ some '#' := by
  obtain ⟨t, ht⟩ := toml_dumps_entry_data (k := k) hv
  rw [ht]
  cases hkd : k.data with
  | nil =>
    simp only [List.nil_append, List.head?_cons]
    intro h
    exact absurd (Option.some.inj h) (by decide)
  | cons c cs =>
    rw [hkd] at hk
    simpa using hk

/-- C9: for every emitted option whose current value serializes non-empty
(and whose key does not itself begin with `#`), the setting line begins with
`#` if and only if the option is not manually set; it appears in the output;
and a manually set option's setting line is immediately preceded by the
comment naming where it was set, inside the option's contiguous run of
output lines. -/
theorem claim_c9 (sd : List (String × String)) (co : List (String × ConfigOption))
    (stf : Bool) (s d k : String) (o : ConfigOption)
    (hsd : (s, d) ∈ sd) (hskip : s ≠ "_test") (hco : (k, o) ∈ co)
    (he : option_emitted s o = true)
    (hne : toml_dumps_entry (option_key o) o.value ≠ "")
    (hkey : (option_key o).data.head? ≠ some '#') :
    ((toml_setting o).data.head? = some '#' ↔ option_is_manually_set o = false)
    ∧ append_setting stf (toml_setting o) ∈ (generate_config sd co stf).out
    ∧ (option_is_manually_set o = true →
        ([append_comment stf ("# The value below was set in " ++ o.where_defined),
          append_setting stf (toml_setting o)] <:+ option_lines stf o
         ∧ option_lines stf o <:+: (generate_config sd co stf).out)) := by
  have hlen0 : (toml_dumps_entry (option_key o) o.value).length ≠ 0 := by
    intro h0
    apply hne
    have hdata : (toml_dumps_entry (option_key o) o.value).data = [] :=
      List.length_eq_zero.1 h0
    apply String.ext
    rw [hdata]
  have hv : o.value ≠ PyVal.none := by
    intro h
    apply hne
    rw [h]
    rfl
  have hsetting : append_setting stf (toml_setting o) ∈ option_lines stf o := by
    unfold option_lines
    simp only [List.mem_append]
    exact Or.inr (List.mem_singleton.2 rfl)
  refine ⟨?_, (option_lines_infix_out stf hsd hskip hco he).subset hsetting, ?_⟩
  · cases hm : option_is_manually_set o
    · have hts : toml_setting o = "#" ++ toml_dumps_entry (option_key o) o.value := by
        simp [toml_setting, hm, hlen0, String.length_append]
      have hhash : "#".data = ['#'] := rfl
      rw [hts]
      simp [String.data_append, hhash]
    · have hts : toml_setting o = toml_dumps_entry (option_key o) o.value := by
        simp [toml_setting, hm, hlen0]
      have hh := toml_dumps_entry_head hv hkey
      rw [hts]
      simp [hm, hh]
  · intro hm
    constructor
    · refine ⟨description_lines stf o ++ default_lines stf o ++ deprecation_lines stf o, ?_⟩
      simp [option_lines, where_defined_lines, hm, List.append_assoc]
    · exact option_lines_infix_out stf hsd hskip hco he

/-- Witness for C9 at the concrete manually-set option `exManual`: its
setting line is uncommented, present in the output, and immediately preceded
by the provenance comment. -/
theorem claim_c9_witness :
    ((toml_setting exManual).data.head? = some '#' ↔
      option_is_manually_set exManual = false)
    ∧ append_setting true (toml_setting exManual) ∈ (generate_config exSd exCo true).out
    ∧ ([append_comment true ("# The value below was set in " ++ exManual.where_defined),
        append_setting true (toml_setting exManual)] <:+ option_lines true exManual)
    ∧ option_lines true exManual <:+: (generate_config exSd exCo true).out := by
  have h := claim_c9 exSd exCo true "server" "Server section" "server.manual" exManual
    (by decide) (by decide) (by decide) (by decide) (by decide) (by decide)
  exact ⟨h.1, h.2.1, (h.2.2 (by decide)).1, (h.2.2 (by decide)).2⟩

/-- A key appearing among a dict's keys has a successful lookup. -/
lemma dict_lookup_isSome {m : List (String × ConfigOption)} {k : String}
    (h : k ∈ m.map Prod.fst) : (dict_lookup m k).isSome = true := by
  obtain ⟨p, hp, rfl⟩ := List.mem_map.1 h
  have hf : (List.find? (fun q => q.1 == p.1) m).isSome = true :=
    List.find?_isSome.2 ⟨p, hp, by simp⟩
  obtain ⟨q, hq⟩ := Option.isSome_iff_exists.1 hf
  unfold dict_lookup
  rw [hq]
  rfl

/-- Characterization of the key loop of `server_option_changed`: provided
every visited key looks up in `old` and every server-prefixed visited key
looks up in `new`, the loop returns `some b` where `b` is true exactly when
some visited server-prefixed key has differing values in the two dicts. -/
lemma server_go_spec (old_options new_options : List (String × ConfigOption))
    (ks : List String)
    (hold : ∀ k ∈ ks, (dict_lookup old_options k).isSome = true)
    (hnew : ∀ k ∈ ks, py_startswith k "server" = true →
      (dict_lookup new_options k).isSome = true) :
    ∃ b, server_option_changed_go old_options new_options ks = some b ∧
      (b = true ↔ ∃ k ∈ ks, py_startswith k "server" = true ∧
        ∃ vo vn, dict_lookup old_options k = some vo ∧
          dict_lookup new_options k = some vn ∧ vo.value ≠ vn.value) := by
  induction ks with
  | nil => exact ⟨false, rfl, by simp⟩
  | cons k ks ih =>
    obtain ⟨b, hb, hiff⟩ := ih (fun x hx => hold x (List.mem_cons_of_mem _ hx))
      (fun x hx hsx => hnew x (List.mem_cons_of_mem _ hx) hsx)
    by_cases hks : py_startswith k "server" = true
    · obtain ⟨vo, hvo⟩ := Option.isSome_iff_exists.1 (hold k (List.mem_cons_self _ _))
      obtain ⟨vn, hvn⟩ :=
        Option.isSome_iff_exists.1 (hnew k (List.mem_cons_self _ _) hks)
      by_cases hval : vo.value = vn.value
      · refine ⟨b, ?_, ?_⟩
        · simp [server_option_changed_go, hks, hvo, hvn, hval, hb]
        · rw [hiff]
          constructor
          · rintro ⟨x, hx, hsx, wo, wn, hwo, hwn, hne⟩
            exact ⟨x, List.mem_cons_of_mem _ hx, hsx, wo, wn, hwo, hwn, hne⟩
          · rintro ⟨x, hx, hsx, wo, wn, hwo, hwn, hne⟩
            rcases List.mem_cons.1 hx with rfl | hx'
            · rw [hvo] at hwo
              rw [hvn] at hwn
              rw [Option.some.inj hwo, Option.some.inj hwn] at hval
              exact absurd hval hne
            · exact ⟨x, hx', hsx, wo, wn, hwo, hwn, hne⟩
      · refine ⟨true, ?_, ?_⟩
        · simp [server_option_changed_go, hks, hvo, hvn, hval]
        · constructor
          · intro _
            exact ⟨k, List.mem_cons_self _ _, hks, vo, vn, hvo, hvn, hval⟩
          · intro _
            rfl
    · refine ⟨b, ?_, ?_⟩
      · simp [server_option_changed_go, hks, hb]
      · rw [hiff]
        constructor
        · rintro ⟨x, hx, hsx, rest⟩
          exact ⟨x, List.mem_cons_of_mem _ hx, hsx, rest⟩
        · rintro ⟨x, hx, hsx, rest⟩
          rcases List.mem_cons.1 hx with rfl | hx'
          · exact absurd hsx hks
          · exact ⟨x, hx', hsx, rest⟩

/-- C8: when every server-prefixed key of the old mapping is also a key of
the new mapping, `server_option_changed` returns normally, and returns true
exactly when some server-prefixed key of the old mapping has differing values
in the two mappings; non-server keys and keys present only in the new mapping
never affect the result. -/
theorem claim_c8 (old_options new_options : List (String × ConfigOption))
    (h : ∀ k ∈ old_options.map Prod.fst, py_startswith k "server" = true →
      k ∈ new_options.map Prod.fst) :
    ∃ b, server_option_changed old_options new_options = some b ∧
      (b = true ↔ ∃ k ∈ old_options.map Prod.fst, py_startswith k "server" = true ∧
        ∃ vo vn, dict_lookup old_options k = some vo ∧
          dict_lookup new_options k = some vn ∧ vo.value ≠ vn.value) :=
  server_go_spec old_options new_options (old_options.map Prod.fst)
    (fun _ hk => dict_lookup_isSome hk)
    (fun k hk hsk => dict_lookup_isSome (h k hk hsk))

/-- Witness for C8 at concrete mappings: the server key's value differs, so
the function returns `some true`. -/
theorem claim_c8_witness :
    server_option_changed exOld exNew = some true := by
  obtain ⟨b, hb, hiff⟩ := claim_c8 exOld exNew (by decide)
  have hbt : b = true := hiff.mpr
    ⟨"server.port", by decide, by decide, exPort, exNoDefault,
      by decide, by decide, by decide⟩
  rw [hbt] at hb
  exact hb
